import Mathlib

/-!
A shallow embedding of the email channel send pipeline
(`apps/worker/src/app/workflow/services/workflow.worker.ts`, class
`SendMessageEmail` and the free functions `createMailData` and
`getReplyToAddress`), together with theorems settling the frozen claims.

External collaborators (repositories, queue, provider adapters, the
template compiler and the base class `SendMessageBase`, whose code is not
part of the sources) are modelled as oracles in a `World` record; every
observable action of the pipeline (message creation/update, audit entries,
error logs, the provider dispatch) is emitted into a trace of `Effect`s.
JavaScript objects that the pipeline only reads through property access are
modelled as association lists of `JsVal`s, with JavaScript truthiness made
explicit.
-/

/-- A JavaScript value as far as the pipeline observes one: a string, an
array of strings, or a flat object. -/
inductive JsVal where
  | vstr (s : String)
  | varr (l : List String)
  | vobj (m : List (String × String))
deriving DecidableEq

/-- JavaScript truthiness for the values of `JsVal`: the empty string is
falsy, arrays and objects are always truthy. -/
def truthy : JsVal → Bool
  | .vstr s => s != ""
  | .varr _ => true
  | .vobj _ => true

/-- Truthiness of a possibly-absent value (`undefined` is falsy). -/
def optTruthy : Option JsVal → Bool
  | some v => truthy v
  | none => false

/-- Truthiness of a possibly-absent string. -/
def strTruthy : Option String → Bool
  | some s => s != ""
  | none => false

/-- A JavaScript object used as a free-form configuration map. -/
abbrev ObjMap := List (String × JsVal)

/-- Property access on an object map; a later binding for the same key
overwrites an earlier one, as assignment does on a JavaScript object. -/
def getProp (o : ObjMap) (k : String) : Option JsVal :=
  o.foldl (fun acc p => if p.1 = k then some p.2 else acc) none

/-- `Object.assign({}, a, b)`: all properties of `a`, then all properties
of `b`, with `b` overwriting on key collision. -/
def objAssign (a b : ObjMap) : ObjMap := a ++ b

/-- The JavaScript `x || d` default pattern on a possibly-absent value. -/
def jsOr (a : Option JsVal) (d : JsVal) : JsVal :=
  match a with
  | some v => if truthy v then v else d
  | none => d

/-- Spreading a value into an array literal: arrays contribute their
elements, a string contributes its one-character substrings; spreading a
plain object raises in JavaScript and is never reached by the pipeline. -/
def spreadList : JsVal → List String
  | .varr l => l
  | .vstr s => s.toList.map (fun c => String.mk [c])
  | .vobj _ => []

/-- `to` before deduplication: a single base recipient string or an
already-array base, as classified by the source's `Array.isArray` test. -/
def baseToList : JsVal → List String
  | .varr l => l
  | .vstr s => [s]
  | .vobj _ => []

/-- The compilation payload assembled by `execute`, restricted to the
fields the claims observe (the full object also carries preheader, content,
digest events, tenant, actor and subscriber data). -/
structure CompilePayload where
  senderName : String
  subject : String
  layoutId : Option String
  contentType : String
  replyToAddress : Option String
deriving DecidableEq

/-- The uniform mail message shape (`IEmailOptions`); attachments and
notification details are omitted, no claim observes them. `toVal` and
`fromVal` render the source fields `to` and `from`, reserved tokens in
Lean. -/
structure IEmailOptions where
  toVal : JsVal
  subject : String
  html : String
  fromVal : JsVal
  text : Option JsVal
  cc : Option JsVal
  bcc : Option JsVal
  replyTo : Option JsVal
  ipPoolName : Option JsVal
  customData : Option JsVal
  payloadDetails : Option CompilePayload
deriving DecidableEq

/-- `filterDuplicate` from the source: the reducer that keeps the first
occurrence of each recipient. -/
def filterDuplicate (prev : List String) (current : String) : List String :=
  if current ∈ prev then prev else prev ++ [current]

/-- `createMailData` from the source: merges the base mail options with the
override map, deduplicating `to` and replacing `text`, `cc`, `bcc` and
`customData` wholesale. -/
def createMailData (options : IEmailOptions) (overrides : ObjMap) : IEmailOptions :=
  let to0 := baseToList options.toVal
  let to1 := to0 ++ spreadList (jsOr (getProp overrides "to") (.varr []))
  let to2 := to1.foldl filterDuplicate []
  { options with
    toVal := .varr to2
    fromVal := jsOr (getProp overrides "from") options.fromVal
    text := getProp overrides "text"
    cc := some (jsOr (getProp overrides "cc") (.varr []))
    bcc := some (jsOr (getProp overrides "bcc") (.varr []))
    ipPoolName :=
      match getProp overrides "ipPoolName" with
      | some v => if truthy v then some v else options.ipPoolName
      | none => options.ipPoolName
    customData := some (jsOr (getProp overrides "customData") (.vobj [])) }

/-- `getReplyToAddress` from the source: pure string construction
`parse+{transactionId}-nv-e={environmentId}@{inboundParseDomain}` (the
source spells the two constant pieces as local string constants). -/
def getReplyToAddress (transactionId : String) (environmentId : String)
    (inboundParseDomain : String) : String :=
  "parse" ++ "+" ++ transactionId ++ "-nv-e=" ++ environmentId ++ "@" ++ inboundParseDomain

/-- First-seen-order deduplication, written from the specification's words:
walk the list keeping each element the first time it is seen and dropping
every later occurrence. `seen` records the elements already kept. -/
def firstSeenDedupAux : List String → List String → List String
  | [], _ => []
  | a :: rest, seen =>
      if a ∈ seen then firstSeenDedupAux rest seen
      else a :: firstSeenDedupAux rest (a :: seen)

/-- Duplicates removed, first occurrence kept, order preserved. -/
def firstSeenDedup (l : List String) : List String :=
  firstSeenDedupAux l []

example : ([ "a", "b", "a", "c", "b" ] : List String).foldl filterDuplicate []
    = ["a", "b", "c"] := by decide

example : firstSeenDedup ["a", "b", "a", "c", "b"] = ["a", "b", "c"] := by decide

/-! ## Pipeline data model -/

/-- Audit entry status (`ExecutionDetailsStatusEnum`). -/
inductive ExecStatus where
  | PENDING
  | SUCCESS
  | FAILED
  | WARNING
deriving DecidableEq

/-- The audit detail codes (`DetailEnum`) the email pipeline emits. -/
inductive PipelineDetail where
  | LIMIT_PASSED_NOVU_INTEGRATION
  | SUBSCRIBER_NO_ACTIVE_INTEGRATION
  | MESSAGE_CREATED
  | MESSAGE_SENT
  | PROVIDER_ERROR
  | LAYOUT_NOT_FOUND
  | REPLY_CALLBACK_MISSING_REPLAY_CALLBACK_URL
  | REPLY_CALLBACK_NOT_CONFIGURATION
  | REPLY_CALLBACK_MISSING_MX_RECORD_CONFIGURATION
  | REPLY_CALLBACK_MISSING_MX_ROUTE_DOMAIN_CONFIGURATION
  | SUBSCRIBER_NO_CHANNEL_DETAILS
deriving DecidableEq

/-- Error-log codes (`LogCodeEnum`) passed to `sendErrorStatus`. -/
inductive LogCode where
  | SUBSCRIBER_MISSING_EMAIL
  | MISSING_EMAIL_INTEGRATION
  | MAIL_PROVIDER_DELIVERY_ERROR
deriving DecidableEq

/-- Outcome of the provider adapter's `send` call, normalized:
`resultId` is `result.id` (possibly absent or empty). -/
structure SendOut where
  resultId : Option String
deriving DecidableEq

/-- The structured values serialized into an audit entry's `raw` field by
`JSON.stringify` at the respective call sites. -/
inductive RawVal where
  | errMessage (msg : String)
  | integrationIdentifier (v : JsVal)
  | layoutIdentifier (id : String)
  | compilePayload (p : CompilePayload)
  | providerResult (r : SendOut)
  | providerError (e : String)
deriving DecidableEq

/-- One execution-detail audit entry as issued by the pipeline
(`CreateExecutionDetailsCommand`); the source is always INTERNAL and the
job-derived fields are not observed by any claim. -/
structure ExecDetail where
  messageId : Option String
  detail : PipelineDetail
  status : ExecStatus
  raw : Option RawVal
  isTest : Bool
  isRetry : Bool
deriving DecidableEq

/-- Builds an audit entry exactly as every call site does
(`isTest: false, isRetry: false`). -/
def mkDetail (messageId : Option String) (detail : PipelineDetail)
    (status : ExecStatus) (raw : Option RawVal) : ExecDetail :=
  { messageId := messageId, detail := detail, status := status, raw := raw,
    isTest := false, isRetry := false }

/-- The Message record as created by `execute`, restricted to the fields
claims observe (linkage identifiers are opaque strings of the command). -/
structure MessageRecord where
  id : String
  subject : String
  email : Option JsVal
  providerId : String
  overrides : ObjMap
  transactionId : String
deriving DecidableEq

/-- One observable action of the pipeline against its collaborators.
`deleteMessage` is the document-store delete operation; it is part of the
repository interface and never emitted by this pipeline.
`errorLog` is `SendMessageBase.sendErrorStatus` — modelled from the spec:
an error-log write distinct from the execution-detail audit trail.
`errorHandlebars` is `sendErrorHandlebars` — modelled from the spec: the
fallback error-template path run on compilation failure. -/
inductive Effect where
  | createMessage (m : MessageRecord)
  | updateMessage (fields : List (String × String))
  | deleteMessage
  | audit (e : ExecDetail)
  | errorLog (code : LogCode)
  | errorHandlebars (msg : String)
  | compileRequest (p : CompilePayload)
  | providerDispatch (mail : IEmailOptions)
deriving DecidableEq

/-- Subscriber reference entity. -/
structure SubscriberRec where
  subscriberId : String
  email : Option String
deriving DecidableEq

/-- Integration (provider configuration) reference entity. -/
structure IntegrationRec where
  providerId : String
  credentialsFrom : Option String
  credentialsSenderName : Option String
deriving DecidableEq

/-- The email step's message template. -/
structure TemplateRec where
  senderName : Option String
  subject : Option String
  content : String
  layoutId : Option String
  contentType : Option String
deriving DecidableEq

/-- Reply-callback configuration on the workflow step. -/
structure ReplyCallbackRec where
  active : Bool
  url : Option String
deriving DecidableEq

/-- The notification step (`NotificationStepEntity`). -/
structure StepRec where
  template : Option TemplateRec
  replyCallback : Option ReplyCallbackRec
deriving DecidableEq

/-- Environment DNS configuration consulted for reply-address derivation. -/
structure DnsRec where
  mxRecordConfigured : Bool
  inboundParseDomain : Option String
deriving DecidableEq

/-- Environment reference entity. -/
structure EnvironmentRec where
  id : String
  dns : Option DnsRec
deriving DecidableEq

/-- The override maps carried by the command: the channel-scoped `email`
object, the provider-scoped objects keyed by provider identifier, and the
top-level layout override identifier. -/
structure CommandOverrides where
  email : Option ObjMap
  provider : List (String × ObjMap)
  layoutIdentifier : Option String
deriving DecidableEq

/-- The trigger payload fields the email pipeline reads. -/
structure PayloadRec where
  email : Option JsVal
deriving DecidableEq

/-- The send-message command for one delivery attempt. -/
structure Command where
  subscriberId : String
  environmentId : String
  organizationId : String
  transactionId : String
  identifier : String
  step : Option StepRec
  payload : PayloadRec
  overrides : CommandOverrides
deriving DecidableEq

/-- Result of integration selection as observed through the base class's
`getIntegration`: the selection either raises (explicit identifier not
found / limits) or resolves to at most one active integration. -/
inductive IntegrationOutcome where
  | raised (msg : String)
  | resolved (i : Option IntegrationRec)
deriving DecidableEq

/-- Compiler output destructured by `execute`. -/
structure CompileOut where
  html : String
  content : String
  subject : String
  senderName : Option String
deriving DecidableEq

instance instDecEqExcept {ε α : Type} [DecidableEq ε] [DecidableEq α] :
    DecidableEq (Except ε α) := fun x y =>
  match x, y with
  | .error a, .error b => decidable_of_iff (a = b) (by simp)
  | .ok a, .ok b => decidable_of_iff (a = b) (by simp)
  | .error _, .ok _ => isFalse (fun h => Except.noConfusion h)
  | .ok _, .error _ => isFalse (fun h => Except.noConfusion h)

/-- The external collaborators of one pipeline run, fixed up front: each
field is the answer the respective external call would return.
`subscriber` is `getSubscriberBySubscriberId`; `integration` is
`getIntegration`; `tenant` is `handleTenantExecution` — modelled from the
spec: an independent, audit-free tenant-context resolution (the
integration-usage accounting side effect is likewise audit-free);
`storeContent` is the base class's content-retention switch; `compile`
covers the compile/store/inline-css `try` block; `send` is the provider
adapter call; `messageId` is the identifier the document store assigns on
create. -/
structure World where
  subscriber : Option SubscriberRec
  actor : Option SubscriberRec
  integration : IntegrationOutcome
  tenant : Option String
  layoutLookup : Option String
  environment : Option EnvironmentRec
  compile : Except String CompileOut
  storeContent : Bool
  send : Except String SendOut
  messageId : String
deriving DecidableEq

/-- The raised (fatal) conditions: `PlatformException`s. -/
inductive PipelineError where
  | platformException (msg : String)
deriving DecidableEq

/-! ## Pipeline operations -/

/-- `command.overrides?.email?.integrationIdentifier`. -/
def overrideSelectedIntegration (cmd : Command) : Option JsVal :=
  cmd.overrides.email.bind (fun m => getProp m "integrationIdentifier")

/-- `command.overrides.email || {}` — the channel-scoped override object. -/
def channelOverrides (cmd : Command) : ObjMap :=
  cmd.overrides.email.getD []

/-- `command.overrides[providerId] || {}` — the provider-scoped override
object. -/
def providerOverrides (cmd : Command) (providerId : String) : ObjMap :=
  (cmd.overrides.provider.lookup providerId).getD []

/-- The override merge performed before Message creation:
`Object.assign({}, command.overrides.email || {},
command.overrides[integration?.providerId] || {})`. -/
def mergedOverrides (cmd : Command) (providerId : String) : ObjMap :=
  objAssign (channelOverrides cmd) (providerOverrides cmd providerId)

/-- The resolved recipient address:
`command.payload.email || subscriber.email`. -/
def emailOf (cmd : Command) (s : SubscriberRec) : Option JsVal :=
  if optTruthy cmd.payload.email then cmd.payload.email else s.email.map .vstr

/-- `command.step.replyCallback?.active`. -/
def replyActive (cmd : Command) : Bool :=
  (((cmd.step.bind (fun st => st.replyCallback)).map (fun rc => rc.active))).getD false

/-- `getOverrideLayoutId`: when a layout override identifier is supplied,
look it up in the environment; a missed lookup writes a `LAYOUT_NOT_FOUND`
audit entry with status `FAILED` and yields no layout identifier. -/
def getOverrideLayoutId (cmd : Command) (w : World) : List Effect × Option String :=
  match cmd.overrides.layoutIdentifier with
  | some ident =>
      if ident = "" then ([], none)
      else
        match w.layoutLookup with
        | none =>
            ([Effect.audit (mkDetail none .LAYOUT_NOT_FOUND .FAILED
                (some (.layoutIdentifier ident)))], none)
        | some lid => ([], some lid)
  | none => ([], none)

/-- `getReplyTo`: derive the inbound-parse reply address, or record a
`WARNING` audit entry and yield `null`; a missing environment record
raises a `PlatformException`. -/
def getReplyTo (cmd : Command) (w : World) (messageId : String) :
    List Effect × Except PipelineError (Option String) :=
  let url := (cmd.step.bind (fun st => st.replyCallback)).bind (fun rc => rc.url)
  if !(strTruthy url) then
    ([Effect.audit (mkDetail (some messageId)
        .REPLY_CALLBACK_MISSING_REPLAY_CALLBACK_URL .WARNING none)], Except.ok none)
  else
    match w.environment with
    | none =>
        ([], Except.error (.platformException
          ("Environment " ++ cmd.environmentId ++ " is not found")))
    | some environment =>
      let mx := (environment.dns.map (fun d => d.mxRecordConfigured)).getD false
      let domain := environment.dns.bind (fun d => d.inboundParseDomain)
      if mx && strTruthy domain then
        ([], Except.ok (some (getReplyToAddress cmd.transactionId environment.id (domain.getD ""))))
      else
        let detailEnum :=
          if !mx && !(strTruthy domain) then PipelineDetail.REPLY_CALLBACK_NOT_CONFIGURATION
          else if !mx then PipelineDetail.REPLY_CALLBACK_MISSING_MX_RECORD_CONFIGURATION
          else PipelineDetail.REPLY_CALLBACK_MISSING_MX_ROUTE_DOMAIN_CONFIGURATION
        ([Effect.audit (mkDetail (some messageId) detailEnum .WARNING none)], Except.ok none)

/-- `sendErrors`: terminal failure branch for a missing recipient address
or (defensively) a missing integration; each writes an error log followed
by one `FAILED` audit entry. -/
def sendErrors (email : Option JsVal) (integration : Option IntegrationRec)
    (messageId : String) : List Effect :=
  if !(optTruthy email) then
    [Effect.errorLog .SUBSCRIBER_MISSING_EMAIL,
     Effect.audit (mkDetail (some messageId) .SUBSCRIBER_NO_CHANNEL_DETAILS .FAILED none)]
  else if integration.isNone then
    [Effect.errorLog .MISSING_EMAIL_INTEGRATION,
     Effect.audit (mkDetail (some messageId) .SUBSCRIBER_NO_ACTIVE_INTEGRATION .FAILED none)]
  else []

/-- `sendMessage`: dispatch through the provider adapter. Success writes a
`SUCCESS` audit entry carrying the raw provider result and, when the
result carries a truthy identifier, updates the Message record with it;
failure writes an error log and a `FAILED` `PROVIDER_ERROR` audit entry. -/
def sendMessage (mailData : IEmailOptions) (w : World) (messageId : String) : List Effect :=
  Effect.providerDispatch mailData ::
    (match w.send with
     | .ok result =>
        Effect.audit (mkDetail (some messageId) .MESSAGE_SENT .SUCCESS
            (some (.providerResult result)))
          :: (if strTruthy result.resultId then
                [Effect.updateMessage [("identifier", result.resultId.getD "")]]
              else [])
     | .error err =>
        [Effect.errorLog .MAIL_PROVIDER_DELIVERY_ERROR,
         Effect.audit (mkDetail (some messageId) .PROVIDER_ERROR .FAILED
            (some (.providerError err)))])

/-- The pipeline tail after subscriber, integration, step and template have
resolved: layout override, override merge, Message creation, reply-address
derivation, compilation (with content persistence when retention is on),
the `MESSAGE_CREATED` audit entry, mail-data assembly and dispatch.
Sender-name threading to the mail factory is not observed by any claim and
is omitted. -/
def mainPath (cmd : Command) (w : World) (subscriber : SubscriberRec)
    (template : TemplateRec) (integration : IntegrationRec) :
    List Effect × Except PipelineError Unit :=
  let email := emailOf cmd subscriber
  let layoutRes := getOverrideLayoutId cmd w
  let overrides := mergedOverrides cmd integration.providerId
  let payload0 : CompilePayload :=
    { senderName := template.senderName.getD ""
      subject := template.subject.getD ""
      layoutId := layoutRes.2.orElse (fun _ => template.layoutId)
      contentType := if strTruthy template.contentType then template.contentType.getD "" else "editor"
      replyToAddress := none }
  let message : MessageRecord :=
    { id := w.messageId, subject := "", email := email,
      providerId := integration.providerId, overrides := overrides,
      transactionId := cmd.transactionId }
  let replyRes :=
    if replyActive cmd then getReplyTo cmd w w.messageId
    else ([], Except.ok none)
  match replyRes.2 with
  | .error e => (layoutRes.1 ++ [Effect.createMessage message] ++ replyRes.1, .error e)
  | .ok replyToOpt =>
    let replyToAddress : Option String :=
      match replyToOpt with
      | some r => if r != "" then some r else none
      | none => none
    let payload := { payload0 with replyToAddress := replyToAddress }
    match w.compile with
    | .error e =>
        (layoutRes.1 ++ [Effect.createMessage message] ++ replyRes.1
          ++ [Effect.compileRequest payload, Effect.errorHandlebars e], .ok ())
    | .ok compiled =>
        let contentEffects :=
          if w.storeContent then
            [Effect.updateMessage [("subject", compiled.subject), ("content", compiled.content)]]
          else []
        let createdEntry := Effect.audit (mkDetail (some w.messageId) .MESSAGE_CREATED .PENDING
          (if w.storeContent then some (.compilePayload payload) else none))
        let mailData0 := createMailData
          { toVal := email.getD (.vstr ""), subject := compiled.subject, html := compiled.html,
            fromVal := .vstr (if strTruthy integration.credentialsFrom then
              integration.credentialsFrom.getD "" else "no-reply@novu.co"),
            text := none, cc := none, bcc := none,
            replyTo := replyToAddress.map .vstr,
            ipPoolName := none, customData := none, payloadDetails := none }
          overrides
        let mailData1 :=
          match cmd.overrides.email.bind (fun m => getProp m "replyTo") with
          | some v => if truthy v then { mailData0 with replyTo := some v } else mailData0
          | none => mailData0
        let mailData :=
          if integration.providerId = "email-webhook" then
            { mailData1 with payloadDetails := some payload }
          else mailData1
        let dispatch :=
          if optTruthy email then sendMessage mailData w w.messageId
          else sendErrors email (some integration) w.messageId
        (layoutRes.1 ++ [Effect.createMessage message] ++ replyRes.1
          ++ [Effect.compileRequest payload] ++ contentEffects ++ [createdEntry] ++ dispatch,
         .ok ())

/-- `SendMessageEmail.execute`: the full pipeline for one job, returning
the trace of observable effects and either normal completion or the raised
`PlatformException`. -/
def execute (cmd : Command) (w : World) : List Effect × Except PipelineError Unit :=
  match w.subscriber with
  | none => ([], .error (.platformException ("Subscriber " ++ cmd.subscriberId ++ " not found")))
  | some subscriber =>
    match w.integration with
    | .raised msg =>
        ([Effect.audit (mkDetail none .LIMIT_PASSED_NOVU_INTEGRATION .FAILED
            (some (.errMessage msg)))], .ok ())
    | .resolved integrationOpt =>
        match cmd.step with
        | none => ([], .error (.platformException "Email channel step not found"))
        | some step =>
          match step.template with
          | none => ([], .error (.platformException "Email channel template not found"))
          | some template =>
            match integrationOpt with
            | none =>
                ([Effect.audit (mkDetail none .SUBSCRIBER_NO_ACTIVE_INTEGRATION .FAILED
                    (match overrideSelectedIntegration cmd with
                     | some v => if truthy v then some (.integrationIdentifier v) else none
                     | none => none))], .ok ())
            | some integration => mainPath cmd w subscriber template integration

/-! ## Trace observation helpers -/

/-- Message-record creation effect. -/
def isCreateMessage : Effect → Bool
  | .createMessage _ => true
  | _ => false

/-- Message-record deletion effect. -/
def isDeleteMessage : Effect → Bool
  | .deleteMessage => true
  | _ => false

/-- Any Message-record mutation effect. -/
def isUpdateMessage : Effect → Bool
  | .updateMessage _ => true
  | _ => false

/-- The post-compile content mutation (sets exactly subject and content). -/
def isContentUpdate : Effect → Bool
  | .updateMessage fields => decide (fields.map Prod.fst = ["subject", "content"])
  | _ => false

/-- The post-dispatch provider-identifier mutation. -/
def isIdentifierUpdate : Effect → Bool
  | .updateMessage fields => decide (fields.map Prod.fst = ["identifier"])
  | _ => false

/-- A Message-record mutation touching any other field set. -/
def isOtherUpdate (e : Effect) : Bool :=
  isUpdateMessage e && !(isContentUpdate e || isIdentifierUpdate e)

/-- An audit entry with status `FAILED`. -/
def isFailedAudit : Effect → Bool
  | .audit d => decide (d.status = .FAILED)
  | _ => false

/-- An audit entry with status `SUCCESS`. -/
def isSuccessAudit : Effect → Bool
  | .audit d => decide (d.status = .SUCCESS)
  | _ => false

/-- An audit entry with the given detail code. -/
def auditDetailIs (dd : PipelineDetail) : Effect → Bool
  | .audit d => decide (d.detail = dd)
  | _ => false

/-- An audit entry with the given detail code and status. -/
def auditDetailStatusIs (dd : PipelineDetail) (st : ExecStatus) : Effect → Bool
  | .audit d => decide (d.detail = dd) && decide (d.status = st)
  | _ => false

/-! ## Object-map lemmas -/

theorem getProp_foldl_init (l : ObjMap) (k : String) (init : Option JsVal) :
    l.foldl (fun acc p => if p.1 = k then some p.2 else acc) init
      = match l.foldl (fun acc p => if p.1 = k then some p.2 else acc) none with
        | some v => some v
        | none => init := by
  induction l generalizing init with
  | nil => simp
  | cons p t ih =>
    simp only [List.foldl_cons]
    rw [ih, ih (if p.1 = k then some p.2 else none)]
    by_cases h : p.1 = k <;>
      cases hfold : List.foldl (fun acc p => if p.1 = k then some p.2 else acc) none t <;>
        simp [h, hfold]

theorem getProp_append (a b : ObjMap) (k : String) :
    getProp (a ++ b) k
      = match getProp b k with
        | some v => some v
        | none => getProp a k := by
  unfold getProp
  rw [List.foldl_append, getProp_foldl_init]

/-! ## Deduplication lemmas -/

theorem firstSeenDedupAux_congr (l : List String) (s1 s2 : List String)
    (h : ∀ x, x ∈ s1 ↔ x ∈ s2) :
    firstSeenDedupAux l s1 = firstSeenDedupAux l s2 := by
  induction l generalizing s1 s2 with
  | nil => rfl
  | cons a t ih =>
    simp only [firstSeenDedupAux]
    by_cases ha : a ∈ s1
    · rw [if_pos ha, if_pos ((h a).mp ha)]
      exact ih s1 s2 h
    · rw [if_neg ha, if_neg (fun hb => ha ((h a).mpr hb))]
      refine congrArg (a :: ·) (ih (a :: s1) (a :: s2) ?_)
      intro x
      simp [h x]

theorem foldl_filterDuplicate_eq_aux (l acc : List String) :
    l.foldl filterDuplicate acc = acc ++ firstSeenDedupAux l acc := by
  induction l generalizing acc with
  | nil => simp [firstSeenDedupAux]
  | cons a t ih =>
    simp only [List.foldl_cons, firstSeenDedupAux, filterDuplicate]
    by_cases ha : a ∈ acc
    · rw [if_pos ha, if_pos ha, ih]
    · rw [if_neg ha, if_neg ha, ih]
      rw [firstSeenDedupAux_congr t (acc ++ [a]) (a :: acc) (by intro x; simp [or_comm])]
      simp

/-- The source's reducer-based deduplication computes exactly the
first-seen-order deduplication described by the specification. -/
theorem foldl_filterDuplicate_eq (l : List String) :
    l.foldl filterDuplicate [] = firstSeenDedup l := by
  simpa [firstSeenDedup] using foldl_filterDuplicate_eq_aux l []

/-! ## Segment lemmas -/

/-- The four reply-callback audit codes. -/
def replyCodes : List PipelineDetail :=
  [.REPLY_CALLBACK_MISSING_REPLAY_CALLBACK_URL, .REPLY_CALLBACK_NOT_CONFIGURATION,
   .REPLY_CALLBACK_MISSING_MX_RECORD_CONFIGURATION,
   .REPLY_CALLBACK_MISSING_MX_ROUTE_DOMAIN_CONFIGURATION]

theorem getReplyTo_countP (cmd : Command) (w : World) (mid : String) (p : Effect → Bool)
    (hp : ∀ d ∈ replyCodes, p (Effect.audit (mkDetail (some mid) d .WARNING none)) = false) :
    ((getReplyTo cmd w mid).1.countP p) = 0 := by
  have hURL := hp .REPLY_CALLBACK_MISSING_REPLAY_CALLBACK_URL (by simp [replyCodes])
  have hNC := hp .REPLY_CALLBACK_NOT_CONFIGURATION (by simp [replyCodes])
  have hMX := hp .REPLY_CALLBACK_MISSING_MX_RECORD_CONFIGURATION (by simp [replyCodes])
  have hMD := hp .REPLY_CALLBACK_MISSING_MX_ROUTE_DOMAIN_CONFIGURATION (by simp [replyCodes])
  simp only [getReplyTo]
  repeat' split
  all_goals simp [List.countP_cons, hURL, hNC, hMX, hMD]

theorem getOverrideLayoutId_countP (cmd : Command) (w : World) (p : Effect → Bool)
    (hp : ∀ id, p (Effect.audit (mkDetail none .LAYOUT_NOT_FOUND .FAILED
        (some (.layoutIdentifier id)))) = false) :
    ((getOverrideLayoutId cmd w).1.countP p) = 0 := by
  unfold getOverrideLayoutId
  repeat' split
  all_goals simp [List.countP_cons, hp]

theorem sendErrors_countP (email : Option JsVal) (integ : Option IntegrationRec) (mid : String)
    (p : Effect → Bool)
    (h1 : p (Effect.errorLog .SUBSCRIBER_MISSING_EMAIL) = false)
    (h2 : p (Effect.audit (mkDetail (some mid) .SUBSCRIBER_NO_CHANNEL_DETAILS .FAILED none)) = false)
    (h3 : p (Effect.errorLog .MISSING_EMAIL_INTEGRATION) = false)
    (h4 : p (Effect.audit (mkDetail (some mid) .SUBSCRIBER_NO_ACTIVE_INTEGRATION .FAILED none)) = false) :
    (sendErrors email integ mid).countP p = 0 := by
  unfold sendErrors
  repeat' split
  all_goals simp [List.countP_cons, h1, h2, h3, h4]

theorem sendMessage_countP (mailData : IEmailOptions) (w : World) (mid : String)
    (p : Effect → Bool)
    (h1 : ∀ m, p (Effect.providerDispatch m) = false)
    (h2 : ∀ r, p (Effect.audit (mkDetail (some mid) .MESSAGE_SENT .SUCCESS
        (some (.providerResult r)))) = false)
    (h3 : ∀ v, p (Effect.updateMessage [("identifier", v)]) = false)
    (h4 : p (Effect.errorLog .MAIL_PROVIDER_DELIVERY_ERROR) = false)
    (h5 : ∀ e, p (Effect.audit (mkDetail (some mid) .PROVIDER_ERROR .FAILED
        (some (.providerError e)))) = false) :
    (sendMessage mailData w mid).countP p = 0 := by
  unfold sendMessage
  repeat' split
  all_goals simp [List.countP_cons, h1, h2, h3, h4, h5]

theorem getOverrideLayoutId_nil (cmd : Command) (w : World)
    (h : cmd.overrides.layoutIdentifier = none ∨ w.layoutLookup ≠ none) :
    (getOverrideLayoutId cmd w).1 = [] := by
  unfold getOverrideLayoutId
  rcases h with h | h
  · simp [h]
  · obtain ⟨lid, hl⟩ : ∃ lid, w.layoutLookup = some lid := by
      cases hw : w.layoutLookup
      · exact absurd hw h
      · exact ⟨_, rfl⟩
    cases hid : cmd.overrides.layoutIdentifier
    · simp
    · simp only []
      split <;> simp [hl]

theorem getOverrideLayoutId_missing (cmd : Command) (w : World) (ident : String)
    (hid : cmd.overrides.layoutIdentifier = some ident) (hne : ident ≠ "")
    (hlk : w.layoutLookup = none) :
    getOverrideLayoutId cmd w
      = ([Effect.audit (mkDetail none .LAYOUT_NOT_FOUND .FAILED
          (some (.layoutIdentifier ident)))], none) := by
  unfold getOverrideLayoutId
  simp [hid, hne, hlk]

theorem getReplyTo_ok_of_env (cmd : Command) (w : World) (mid : String) (en : EnvironmentRec)
    (hen : w.environment = some en) :
    ∃ r, (getReplyTo cmd w mid).2 = Except.ok r := by
  simp only [getReplyTo, hen]
  split
  · exact ⟨none, rfl⟩
  · split
    · exact ⟨_, rfl⟩
    · exact ⟨none, rfl⟩

/-! ## Concrete fixtures -/

/-- A nominal email template. -/
def tpl0 : TemplateRec :=
  { senderName := some "Acme", subject := some "Hi", content := "hi",
    layoutId := some "layout-default", contentType := some "editor" }

/-- A nominal step without reply callbacks. -/
def step0 : StepRec := { template := some tpl0, replyCallback := none }

/-- A subscriber with a stored address. -/
def sub0 : SubscriberRec := { subscriberId := "sub-1", email := some "a@x.com" }

/-- A nominal active integration. -/
def integ0 : IntegrationRec :=
  { providerId := "sendgrid", credentialsFrom := some "noreply@acme.io",
    credentialsSenderName := some "Acme" }

/-- A nominal command with no overrides and no payload address. -/
def cmd0 : Command :=
  { subscriberId := "sub-1", environmentId := "env-1", organizationId := "org-1",
    transactionId := "tx-1", identifier := "wf-1", step := some step0,
    payload := { email := none },
    overrides := { email := none, provider := [], layoutIdentifier := none } }

/-- A nominal compiler output. -/
def compiled0 : CompileOut :=
  { html := "<p>hi</p>", content := "hi", subject := "Hi", senderName := some "Acme" }

/-- A nominal world: every collaborator answers successfully. -/
def w0 : World :=
  { subscriber := some sub0, actor := none, integration := .resolved (some integ0),
    tenant := none, layoutLookup := none, environment := none,
    compile := .ok compiled0, storeContent := true,
    send := .ok { resultId := some "prov-1" }, messageId := "msg-1" }

/-- Base mail options used in the deduplication example. -/
def c6Opts : IEmailOptions :=
  { toVal := .vstr "a@x.com", subject := "s", html := "<p/>", fromVal := .vstr "f@x.com",
    text := none, cc := none, bcc := none, replyTo := none, ipPoolName := none,
    customData := none, payloadDetails := none }

/-- A command whose channel- and provider-scoped override maps collide. -/
def c5Cmd : Command :=
  { cmd0 with overrides :=
    { email := some [("senderName", .vstr "chan")],
      provider := [("sendgrid", [("senderName", .vstr "prov")])],
      layoutIdentifier := none } }

/-! ## Claims -/

/-- C5: for every channel-scoped and provider-scoped override map and every
key present in both, the override merge performed before Message creation
binds the key to the provider-scoped value. -/
theorem C5_provider_override_wins (cmd : Command) (providerId : String) (k : String)
    (vC vP : JsVal)
    (hC : getProp (channelOverrides cmd) k = some vC)
    (hP : getProp (providerOverrides cmd providerId) k = some vP) :
    getProp (mergedOverrides cmd providerId) k = some vP := by
  unfold mergedOverrides objAssign
  rw [getProp_append, hP]

theorem C5_provider_override_wins_witness :
    getProp (channelOverrides c5Cmd) "senderName" = some (.vstr "chan")
    ∧ getProp (providerOverrides c5Cmd "sendgrid") "senderName" = some (.vstr "prov")
    ∧ getProp (mergedOverrides c5Cmd "sendgrid") "senderName" = some (.vstr "prov") :=
  ⟨by decide, by decide,
   C5_provider_override_wins c5Cmd "sendgrid" "senderName" (.vstr "chan") (.vstr "prov")
     (by decide) (by decide)⟩

/-- C6: `createMailData` returns a `to` list equal to the base recipient(s)
followed by the override-supplied recipients with duplicates removed in
first-seen order; in particular base `a@x.com` with overrides
`[a@x.com, b@x.com]` yields `[a@x.com, b@x.com]`. -/
theorem C6_to_first_seen_dedup :
    (∀ (options : IEmailOptions) (overrides : ObjMap),
      (createMailData options overrides).toVal
        = .varr (firstSeenDedup (baseToList options.toVal
            ++ spreadList (jsOr (getProp overrides "to") (.varr [])))))
    ∧ (createMailData c6Opts [("to", .varr ["a@x.com", "b@x.com"])]).toVal
        = .varr ["a@x.com", "b@x.com"] := by
  constructor
  · intro options overrides
    simp only [createMailData]
    rw [foldl_filterDuplicate_eq]
  · decide

/-- C10: `createMailData` always replaces the base options' `text`, `cc`
and `bcc` with the override-supplied values — `text` becomes the override
`text` (absent when the override map lacks it), `cc` and `bcc` become the
override values defaulted to empty lists — so a base `text`, `cc` or `bcc`
value is never preserved. -/
theorem C10_text_cc_bcc_replaced (options : IEmailOptions) (overrides : ObjMap) :
    (createMailData options overrides).text = getProp overrides "text"
    ∧ (createMailData options overrides).cc = some (jsOr (getProp overrides "cc") (.varr []))
    ∧ (createMailData options overrides).bcc = some (jsOr (getProp overrides "bcc") (.varr [])) :=
  ⟨rfl, rfl, rfl⟩

/-- C7: for all non-empty transaction identifier, environment identifier
and inbound-parse domain, the reply-to derivation returns exactly
`parse+{transactionId}-nv-e={environmentId}@{inboundParseDomain}`. -/
theorem C7_reply_to_format (t e d : String) (ht : t ≠ "") (he : e ≠ "") (hd : d ≠ "") :
    getReplyToAddress t e d = "parse+" ++ t ++ "-nv-e=" ++ e ++ "@" ++ d := rfl

theorem C7_reply_to_format_witness :
    "tx123" ≠ "" ∧
    getReplyToAddress "tx123" "env456" "reply.example.com"
      = "parse+" ++ "tx123" ++ "-nv-e=" ++ "env456" ++ "@" ++ "reply.example.com" :=
  ⟨by decide,
   C7_reply_to_format "tx123" "env456" "reply.example.com" (by decide) (by decide) (by decide)⟩

/-! ## Main-path decomposition -/

/-- The Message record `execute` creates on the main path. -/
def mainMsg (cmd : Command) (w : World) (s : SubscriberRec) (integ : IntegrationRec) :
    MessageRecord :=
  { id := w.messageId, subject := "", email := emailOf cmd s,
    providerId := integ.providerId, overrides := mergedOverrides cmd integ.providerId,
    transactionId := cmd.transactionId }

/-- The compilation payload `execute` assembles on the main path. -/
def mainPayload (cmd : Command) (w : World) (tpl : TemplateRec)
    (replyToAddress : Option String) : CompilePayload :=
  { senderName := tpl.senderName.getD ""
    subject := tpl.subject.getD ""
    layoutId := (getOverrideLayoutId cmd w).2.orElse (fun _ => tpl.layoutId)
    contentType := if strTruthy tpl.contentType then tpl.contentType.getD "" else "editor"
    replyToAddress := replyToAddress }

/-- The mail data `execute` assembles on the main path after successful
compilation. -/
def mainMailData (cmd : Command) (w : World) (s : SubscriberRec) (tpl : TemplateRec)
    (integ : IntegrationRec) (compiled : CompileOut) (replyToAddress : Option String) :
    IEmailOptions :=
  let mailData0 := createMailData
    { toVal := (emailOf cmd s).getD (.vstr ""), subject := compiled.subject,
      html := compiled.html,
      fromVal := .vstr (if strTruthy integ.credentialsFrom then
        integ.credentialsFrom.getD "" else "no-reply@novu.co"),
      text := none, cc := none, bcc := none,
      replyTo := replyToAddress.map .vstr,
      ipPoolName := none, customData := none, payloadDetails := none }
    (mergedOverrides cmd integ.providerId)
  let mailData1 :=
    match cmd.overrides.email.bind (fun m => getProp m "replyTo") with
    | some v => if truthy v then { mailData0 with replyTo := some v } else mailData0
    | none => mailData0
  if integ.providerId = "email-webhook" then
    { mailData1 with payloadDetails := some (mainPayload cmd w tpl replyToAddress) }
  else mailData1

theorem mainPath_trace (cmd : Command) (w : World) (s : SubscriberRec)
    (tpl : TemplateRec) (integ : IntegrationRec)
    (hrep : replyActive cmd = false ∨ w.environment ≠ none) :
    ∃ (replyEffs : List Effect) (payload : CompilePayload),
      (∀ p : Effect → Bool,
          (∀ d ∈ replyCodes,
            p (Effect.audit (mkDetail (some w.messageId) d .WARNING none)) = false) →
          replyEffs.countP p = 0)
      ∧ payload.layoutId = ((getOverrideLayoutId cmd w).2.orElse (fun _ => tpl.layoutId))
      ∧ (mainPath cmd w s tpl integ).2 = Except.ok ()
      ∧ ((∃ e, w.compile = .error e ∧
            (mainPath cmd w s tpl integ).1
              = (getOverrideLayoutId cmd w).1
                ++ [Effect.createMessage (mainMsg cmd w s integ)] ++ replyEffs
                ++ [Effect.compileRequest payload, Effect.errorHandlebars e])
        ∨ (∃ compiled mailData, w.compile = .ok compiled ∧
            (mainPath cmd w s tpl integ).1
              = (getOverrideLayoutId cmd w).1
                ++ [Effect.createMessage (mainMsg cmd w s integ)] ++ replyEffs
                ++ [Effect.compileRequest payload]
                ++ (if w.storeContent then
                      [Effect.updateMessage
                        [("subject", compiled.subject), ("content", compiled.content)]]
                    else [])
                ++ [Effect.audit (mkDetail (some w.messageId) .MESSAGE_CREATED .PENDING
                     (if w.storeContent then some (.compilePayload payload) else none))]
                ++ (if optTruthy (emailOf cmd s) then sendMessage mailData w w.messageId
                    else sendErrors (emailOf cmd s) (some integ) w.messageId))) := by
  have hreply : ∃ (replyEffs : List Effect) (rOpt : Option String),
      (if replyActive cmd then getReplyTo cmd w w.messageId else ([], Except.ok none))
        = (replyEffs, Except.ok rOpt)
      ∧ (∀ p : Effect → Bool,
          (∀ d ∈ replyCodes,
            p (Effect.audit (mkDetail (some w.messageId) d .WARNING none)) = false) →
          replyEffs.countP p = 0) := by
    by_cases hact : replyActive cmd
    · rcases hrep with hrep | hrep
      · rw [hrep] at hact; exact absurd hact (by simp)
      · obtain ⟨en, hen⟩ : ∃ en, w.environment = some en := by
          cases hw : w.environment
          · exact absurd hw hrep
          · exact ⟨_, rfl⟩
        obtain ⟨r, hr⟩ := getReplyTo_ok_of_env cmd w w.messageId en hen
        refine ⟨(getReplyTo cmd w w.messageId).1, r, ?_, ?_⟩
        · rw [if_pos hact]
          have hP : getReplyTo cmd w w.messageId
              = ((getReplyTo cmd w w.messageId).1, (getReplyTo cmd w w.messageId).2) := rfl
          rw [hP, hr]
        · intro p hp
          exact getReplyTo_countP cmd w w.messageId p hp
    · refine ⟨[], none, ?_, ?_⟩
      · rw [if_neg hact]
      · intro p hp; simp
  obtain ⟨replyEffs, rOpt, hpair, hcount⟩ := hreply
  refine ⟨replyEffs, mainPayload cmd w tpl
    (match rOpt with
     | some r => if r != "" then some r else none
     | none => none), hcount, rfl, ?_, ?_⟩
  · cases hc : w.compile <;> simp [mainPath, hpair, hc]
  · cases hc : w.compile with
    | error e =>
        refine .inl ⟨e, rfl, ?_⟩
        simp only [mainPath, hpair, hc, mainMsg, mainPayload]
        cases rOpt <;> rfl
    | ok compiled =>
        refine .inr ⟨compiled, mainMailData cmd w s tpl integ compiled
          (match rOpt with
           | some r => if r != "" then some r else none
           | none => none), rfl, ?_⟩
        simp only [mainPath, hpair, hc, mainMsg, mainPayload, mainMailData]
        cases rOpt <;> rfl

theorem execute_eq_mainPath (cmd : Command) (w : World) (s : SubscriberRec)
    (st : StepRec) (tpl : TemplateRec) (integ : IntegrationRec)
    (hs : w.subscriber = some s) (hi : w.integration = .resolved (some integ))
    (hst : cmd.step = some st) (htpl : st.template = some tpl) :
    execute cmd w = mainPath cmd w s tpl integ := by
  simp [execute, hs, hi, hst, htpl]

/-- C4: once the subscriber, step and template resolve, a selection that
yields no active integration makes the pipeline return normally, create no
Message record, and record exactly one FAILED audit entry with the
SUBSCRIBER_NO_ACTIVE_INTEGRATION code; a raising selection (explicitly
supplied identifier not found) makes it return normally, create no Message
record, and record exactly one FAILED audit entry with the
LIMIT_PASSED_NOVU_INTEGRATION code. -/
theorem C4_integration_failure_handling (cmd : Command) (w : World) (s : SubscriberRec)
    (hs : w.subscriber = some s) :
    (∀ st tpl, cmd.step = some st → st.template = some tpl →
      w.integration = .resolved none →
      ∃ r, execute cmd w
        = ([Effect.audit (mkDetail none .SUBSCRIBER_NO_ACTIVE_INTEGRATION .FAILED r)],
           Except.ok ()))
    ∧ (∀ msg, w.integration = .raised msg →
      execute cmd w
        = ([Effect.audit (mkDetail none .LIMIT_PASSED_NOVU_INTEGRATION .FAILED
            (some (.errMessage msg)))], Except.ok ())) := by
  constructor
  · intro st tpl hst htpl hi
    refine ⟨match overrideSelectedIntegration cmd with
            | some v => if truthy v then some (.integrationIdentifier v) else none
            | none => none, ?_⟩
    simp [execute, hs, hi, hst, htpl]
  · intro msg hi
    simp [execute, hs, hi]

/-- A world whose integration selection finds no active integration. -/
def c4aWorld : World := { w0 with integration := .resolved none }

/-- A world whose integration selection raises. -/
def c4bWorld : World := { w0 with integration := .raised "int-x not found" }

theorem C4_integration_failure_handling_witness :
    (∃ r, execute cmd0 c4aWorld
      = ([Effect.audit (mkDetail none .SUBSCRIBER_NO_ACTIVE_INTEGRATION .FAILED r)],
         Except.ok ()))
    ∧ execute cmd0 c4bWorld
      = ([Effect.audit (mkDetail none .LIMIT_PASSED_NOVU_INTEGRATION .FAILED
          (some (.errMessage "int-x not found")))], Except.ok ()) :=
  ⟨(C4_integration_failure_handling cmd0 c4aWorld sub0 rfl).1 step0 tpl0 rfl rfl rfl,
   (C4_integration_failure_handling cmd0 c4bWorld sub0 rfl).2 "int-x not found" rfl⟩

/-- A command supplying a layout-override identifier that `w0` resolves to
no layout. -/
def c2Cmd : Command :=
  { cmd0 with overrides :=
    { email := none, provider := [], layoutIdentifier := some "missing-layout" } }

/-- C2 counterexample: in a concrete run with a supplied but unresolvable
layout override, the pipeline writes no WARNING audit entry with code
LAYOUT_NOT_FOUND — the entry it writes has status FAILED. -/
theorem C2_layout_warning_counterexample :
    c2Cmd.overrides.layoutIdentifier = some "missing-layout"
    ∧ w0.layoutLookup = none
    ∧ (execute c2Cmd w0).1.countP (auditDetailStatusIs .LAYOUT_NOT_FOUND .WARNING) = 0
    ∧ (execute c2Cmd w0).1.countP (auditDetailStatusIs .LAYOUT_NOT_FOUND .FAILED) = 1 := by
  decide

/-- C2 (amended): when a layout-override identifier is supplied but no
layout with that identifier exists in the environment, the pipeline writes
exactly one audit entry with code LAYOUT_NOT_FOUND — with status FAILED,
not WARNING — and continues without aborting: it creates the Message
record, requests compilation with the step's default layout, and returns
normally. -/
theorem C2_layout_not_found_failed (cmd : Command) (w : World) (s : SubscriberRec)
    (st : StepRec) (tpl : TemplateRec) (integ : IntegrationRec) (ident : String)
    (hs : w.subscriber = some s)
    (hi : w.integration = .resolved (some integ))
    (hst : cmd.step = some st) (htpl : st.template = some tpl)
    (hid : cmd.overrides.layoutIdentifier = some ident) (hne : ident ≠ "")
    (hlk : w.layoutLookup = none)
    (hrep : replyActive cmd = false ∨ w.environment ≠ none) :
    (execute cmd w).2 = Except.ok ()
    ∧ (execute cmd w).1.countP (auditDetailIs .LAYOUT_NOT_FOUND) = 1
    ∧ (execute cmd w).1.countP (auditDetailStatusIs .LAYOUT_NOT_FOUND .FAILED) = 1
    ∧ (execute cmd w).1.countP isCreateMessage = 1
    ∧ (∃ p, Effect.compileRequest p ∈ (execute cmd w).1 ∧ p.layoutId = tpl.layoutId) := by
  have hexec := execute_eq_mainPath cmd w s st tpl integ hs hi hst htpl
  obtain ⟨replyEffs, payload, hrc, hplay, hok, hbranch⟩ := mainPath_trace cmd w s tpl integ hrep
  have hlayoutEq := getOverrideLayoutId_missing cmd w ident hid hne hlk
  have hz1 := hrc (auditDetailIs .LAYOUT_NOT_FOUND)
    (by intro d hd; simp [replyCodes] at hd; rcases hd with rfl | rfl | rfl | rfl <;> rfl)
  have hz2 := hrc (auditDetailStatusIs .LAYOUT_NOT_FOUND .FAILED)
    (by intro d hd; simp [replyCodes] at hd; rcases hd with rfl | rfl | rfl | rfl <;> rfl)
  have hz3 := hrc isCreateMessage (fun d _ => rfl)
  have hplay2 : payload.layoutId = tpl.layoutId := by
    rw [hplay, hlayoutEq]; rfl
  rw [hexec]
  refine ⟨hok, ?_⟩
  rcases hbranch with ⟨e, hc, htr⟩ | ⟨compiled, mailData, hc, htr⟩
  · rw [htr, hlayoutEq]
    refine ⟨?_, ?_, ?_, ⟨payload, ?_, hplay2⟩⟩
    · simp [List.countP_append, hz1, auditDetailIs, mkDetail]
    · simp [List.countP_append, hz2, auditDetailStatusIs, mkDetail]
    · simp [List.countP_append, hz3, isCreateMessage]
    · simp
  · rw [htr, hlayoutEq]
    have hsm1 := sendMessage_countP mailData w w.messageId (auditDetailIs .LAYOUT_NOT_FOUND)
      (fun _ => rfl) (fun r => by simp [auditDetailIs, mkDetail]) (fun _ => rfl) rfl
      (fun e => by simp [auditDetailIs, mkDetail])
    have hse1 := sendErrors_countP (emailOf cmd s) (some integ) w.messageId
      (auditDetailIs .LAYOUT_NOT_FOUND) rfl (by simp [auditDetailIs, mkDetail]) rfl
      (by simp [auditDetailIs, mkDetail])
    have hsm2 := sendMessage_countP mailData w w.messageId
      (auditDetailStatusIs .LAYOUT_NOT_FOUND .FAILED)
      (fun _ => rfl) (fun r => by simp [auditDetailStatusIs, mkDetail]) (fun _ => rfl) rfl
      (fun e => by simp [auditDetailStatusIs, mkDetail])
    have hse2 := sendErrors_countP (emailOf cmd s) (some integ) w.messageId
      (auditDetailStatusIs .LAYOUT_NOT_FOUND .FAILED) rfl
      (by simp [auditDetailStatusIs, mkDetail]) rfl
      (by simp [auditDetailStatusIs, mkDetail])
    have hsm3 := sendMessage_countP mailData w w.messageId isCreateMessage
      (fun _ => rfl) (fun _ => rfl) (fun _ => rfl) rfl (fun _ => rfl)
    have hse3 := sendErrors_countP (emailOf cmd s) (some integ) w.messageId
      isCreateMessage rfl rfl rfl rfl
    refine ⟨?_, ?_, ?_, ⟨payload, ?_, hplay2⟩⟩
    · cases hsc : w.storeContent <;> cases he2 : optTruthy (emailOf cmd s) <;>
        simp [List.countP_append, hz1, hsm1, hse1, hsc, he2, auditDetailIs, mkDetail]
    · cases hsc : w.storeContent <;> cases he2 : optTruthy (emailOf cmd s) <;>
        simp [List.countP_append, hz2, hsm2, hse2, hsc, he2, auditDetailStatusIs, mkDetail]
    · cases hsc : w.storeContent <;> cases he2 : optTruthy (emailOf cmd s) <;>
        simp [List.countP_append, hz3, hsm3, hse3, hsc, he2, isCreateMessage]
    · simp

theorem C2_layout_not_found_failed_witness :
    (execute c2Cmd w0).2 = Except.ok ()
    ∧ (execute c2Cmd w0).1.countP (auditDetailIs .LAYOUT_NOT_FOUND) = 1
    ∧ (execute c2Cmd w0).1.countP (auditDetailStatusIs .LAYOUT_NOT_FOUND .FAILED) = 1
    ∧ (execute c2Cmd w0).1.countP isCreateMessage = 1
    ∧ (∃ p, Effect.compileRequest p ∈ (execute c2Cmd w0).1 ∧ p.layoutId = tpl0.layoutId) :=
  C2_layout_not_found_failed c2Cmd w0 sub0 step0 tpl0 integ0 "missing-layout"
    rfl rfl rfl rfl rfl (by decide) rfl (.inl rfl)

/-- A subscriber without a stored email address. -/
def c1Sub : SubscriberRec := { subscriberId := "sub-1", email := none }

/-- A nominal world whose subscriber has no stored address. -/
def c1World : World := { w0 with subscriber := some c1Sub }

/-- C1 counterexample: in a concrete run where the subscriber has no
stored address and the payload supplies none, the pipeline does create a
Message record (one creation effect), contradicting the claim that none is
created; it writes exactly one FAILED audit entry, with the
SUBSCRIBER_NO_CHANNEL_DETAILS code, and returns normally. -/
theorem C1_missing_address_counterexample :
    cmd0.payload.email = none
    ∧ c1World.subscriber = some { subscriberId := "sub-1", email := none }
    ∧ (execute cmd0 c1World).1.countP isCreateMessage = 1
    ∧ (execute cmd0 c1World).1.countP isFailedAudit = 1
    ∧ Effect.audit (mkDetail (some "msg-1") .SUBSCRIBER_NO_CHANNEL_DETAILS .FAILED none)
        ∈ (execute cmd0 c1World).1
    ∧ (execute cmd0 c1World).2 = Except.ok () := by
  decide

/-- C1 (amended): when the resolved subscriber has no stored email address,
the payload supplies none, and the run otherwise proceeds nominally
(integration, step and template resolve, any supplied layout override
resolves, the reply-callback stage does not raise, compilation succeeds),
the pipeline creates exactly one Message record, writes exactly one FAILED
audit entry — carrying the missing-address SUBSCRIBER_NO_CHANNEL_DETAILS
code and the Message identifier — and returns normally without raising. -/
theorem C1_missing_address (cmd : Command) (w : World) (s : SubscriberRec)
    (st : StepRec) (tpl : TemplateRec) (integ : IntegrationRec) (co : CompileOut)
    (hs : w.subscriber = some s)
    (hse : strTruthy s.email = false)
    (hpe : optTruthy cmd.payload.email = false)
    (hi : w.integration = .resolved (some integ))
    (hst : cmd.step = some st) (htpl : st.template = some tpl)
    (hco : w.compile = .ok co)
    (hlay : cmd.overrides.layoutIdentifier = none ∨ w.layoutLookup ≠ none)
    (hrep : replyActive cmd = false ∨ w.environment ≠ none) :
    (execute cmd w).2 = Except.ok ()
    ∧ (execute cmd w).1.countP isCreateMessage = 1
    ∧ (execute cmd w).1.countP isFailedAudit = 1
    ∧ Effect.audit (mkDetail (some w.messageId) .SUBSCRIBER_NO_CHANNEL_DETAILS .FAILED none)
        ∈ (execute cmd w).1 := by
  have hexec := execute_eq_mainPath cmd w s st tpl integ hs hi hst htpl
  obtain ⟨replyEffs, payload, hrc, hplay, hok, hbranch⟩ := mainPath_trace cmd w s tpl integ hrep
  have hlnil := getOverrideLayoutId_nil cmd w hlay
  have hzc := hrc isCreateMessage (fun d _ => rfl)
  have hzf := hrc isFailedAudit (fun d _ => rfl)
  have hemail : optTruthy (emailOf cmd s) = false := by
    unfold emailOf
    rw [hpe]
    cases hsem : s.email with
    | none => simp [optTruthy]
    | some str =>
        rw [hsem] at hse
        simp only [strTruthy] at hse
        simp [optTruthy, truthy, hse]
  rw [hexec]
  refine ⟨hok, ?_⟩
  rcases hbranch with ⟨e, hc, _⟩ | ⟨compiled, mailData, hc, htr⟩
  · rw [hco] at hc
    exact absurd hc (by simp)
  · rw [htr, hlnil]
    refine ⟨?_, ?_, ?_⟩
    · cases hsc : w.storeContent <;>
        simp [List.countP_append, hzc, hemail, sendErrors, isCreateMessage, hsc]
    · cases hsc : w.storeContent <;>
        simp [List.countP_append, hzf, hemail, sendErrors, isFailedAudit, mkDetail,
          isContentUpdate, hsc]
    · simp [hemail, sendErrors]

theorem C1_missing_address_witness :
    (execute cmd0 c1World).2 = Except.ok ()
    ∧ (execute cmd0 c1World).1.countP isCreateMessage = 1
    ∧ (execute cmd0 c1World).1.countP isFailedAudit = 1
    ∧ Effect.audit (mkDetail (some c1World.messageId) .SUBSCRIBER_NO_CHANNEL_DETAILS
        .FAILED none) ∈ (execute cmd0 c1World).1 :=
  C1_missing_address cmd0 c1World c1Sub step0 tpl0 integ0 compiled0
    rfl rfl rfl rfl rfl rfl rfl (.inl rfl) (.inl rfl)

/-- C9: when the provider adapter's send succeeds on a run that reaches
dispatch, the pipeline records exactly one SUCCESS audit entry, carrying
the raw provider result; when the result carries a truthy (non-empty)
identifier the Message record is updated to exactly that identifier, and
when the identifier is absent no identifier update occurs. -/
theorem C9_success_dispatch (cmd : Command) (w : World) (s : SubscriberRec)
    (st : StepRec) (tpl : TemplateRec) (integ : IntegrationRec) (co : CompileOut)
    (result : SendOut)
    (hs : w.subscriber = some s)
    (hi : w.integration = .resolved (some integ))
    (hst : cmd.step = some st) (htpl : st.template = some tpl)
    (hemail : optTruthy (emailOf cmd s) = true)
    (hco : w.compile = .ok co)
    (hsend : w.send = .ok result)
    (hrep : replyActive cmd = false ∨ w.environment ≠ none) :
    (execute cmd w).2 = Except.ok ()
    ∧ (execute cmd w).1.countP isSuccessAudit = 1
    ∧ Effect.audit (mkDetail (some w.messageId) .MESSAGE_SENT .SUCCESS
        (some (.providerResult result))) ∈ (execute cmd w).1
    ∧ (strTruthy result.resultId = true →
        Effect.updateMessage [("identifier", result.resultId.getD "")] ∈ (execute cmd w).1)
    ∧ (result.resultId = none → (execute cmd w).1.countP isIdentifierUpdate = 0) := by
  have hexec := execute_eq_mainPath cmd w s st tpl integ hs hi hst htpl
  obtain ⟨replyEffs, payload, hrc, hplay, hok, hbranch⟩ := mainPath_trace cmd w s tpl integ hrep
  have hzs := hrc isSuccessAudit (fun d _ => rfl)
  have hzi := hrc isIdentifierUpdate (fun d _ => rfl)
  have hzls := getOverrideLayoutId_countP cmd w isSuccessAudit (fun _ => rfl)
  have hzli := getOverrideLayoutId_countP cmd w isIdentifierUpdate (fun _ => rfl)
  rw [hexec]
  refine ⟨hok, ?_⟩
  rcases hbranch with ⟨e, hc, _⟩ | ⟨compiled, mailData, hc, htr⟩
  · rw [hco] at hc
    exact absurd hc (by simp)
  · rw [htr]
    refine ⟨?_, ?_, ?_, ?_⟩
    · cases hsc : w.storeContent <;>
        cases hid : strTruthy result.resultId <;>
          simp [List.countP_append, hzs, hzls, hemail, sendMessage, hsend, hid,
            isSuccessAudit, mkDetail, hsc]
    · simp [hemail, sendMessage, hsend]
    · intro hid
      simp [hemail, sendMessage, hsend, hid]
    · intro hid
      have hid2 : strTruthy result.resultId = false := by rw [hid]; rfl
      cases hsc : w.storeContent <;>
        simp [List.countP_append, hzi, hzli, hemail, sendMessage, hsend, hid2,
          isIdentifierUpdate, hsc]

theorem C9_success_dispatch_witness :
    (execute cmd0 w0).2 = Except.ok ()
    ∧ (execute cmd0 w0).1.countP isSuccessAudit = 1
    ∧ Effect.audit (mkDetail (some w0.messageId) .MESSAGE_SENT .SUCCESS
        (some (.providerResult { resultId := some "prov-1" }))) ∈ (execute cmd0 w0).1
    ∧ (strTruthy (some "prov-1") = true →
        Effect.updateMessage [("identifier", "prov-1")] ∈ (execute cmd0 w0).1)
    ∧ ((some "prov-1" : Option String) = none →
        (execute cmd0 w0).1.countP isIdentifierUpdate = 0) :=
  C9_success_dispatch cmd0 w0 sub0 step0 tpl0 integ0 compiled0 { resultId := some "prov-1" }
    rfl rfl rfl rfl (by decide) rfl rfl (.inl rfl)

/-! ## Message-record operation counts per segment -/

theorem sendMessage_zero_create (md : IEmailOptions) (w : World) (mid : String) :
    (sendMessage md w mid).countP isCreateMessage = 0 :=
  sendMessage_countP _ _ _ _ (fun _ => rfl) (fun _ => rfl) (fun _ => rfl) rfl (fun _ => rfl)

theorem sendMessage_zero_delete (md : IEmailOptions) (w : World) (mid : String) :
    (sendMessage md w mid).countP isDeleteMessage = 0 :=
  sendMessage_countP _ _ _ _ (fun _ => rfl) (fun _ => rfl) (fun _ => rfl) rfl (fun _ => rfl)

theorem sendMessage_zero_other (md : IEmailOptions) (w : World) (mid : String) :
    (sendMessage md w mid).countP isOtherUpdate = 0 :=
  sendMessage_countP _ _ _ _ (fun _ => rfl)
    (fun _ => rfl)
    (fun v => by simp [isOtherUpdate, isUpdateMessage, isContentUpdate, isIdentifierUpdate])
    rfl (fun _ => rfl)

theorem sendMessage_zero_content (md : IEmailOptions) (w : World) (mid : String) :
    (sendMessage md w mid).countP isContentUpdate = 0 :=
  sendMessage_countP _ _ _ _ (fun _ => rfl) (fun _ => rfl)
    (fun v => by simp [isContentUpdate]) rfl (fun _ => rfl)

theorem sendMessage_id_le_one (md : IEmailOptions) (w : World) (mid : String) :
    (sendMessage md w mid).countP isIdentifierUpdate ≤ 1 := by
  unfold sendMessage
  repeat' split
  all_goals simp [List.countP_cons, isIdentifierUpdate]

theorem sendErrors_zero_create (email : Option JsVal) (integ : Option IntegrationRec)
    (mid : String) : (sendErrors email integ mid).countP isCreateMessage = 0 :=
  sendErrors_countP _ _ _ _ rfl rfl rfl rfl

theorem sendErrors_zero_delete (email : Option JsVal) (integ : Option IntegrationRec)
    (mid : String) : (sendErrors email integ mid).countP isDeleteMessage = 0 :=
  sendErrors_countP _ _ _ _ rfl rfl rfl rfl

theorem sendErrors_zero_other (email : Option JsVal) (integ : Option IntegrationRec)
    (mid : String) : (sendErrors email integ mid).countP isOtherUpdate = 0 :=
  sendErrors_countP _ _ _ _ rfl rfl rfl rfl

theorem sendErrors_zero_content (email : Option JsVal) (integ : Option IntegrationRec)
    (mid : String) : (sendErrors email integ mid).countP isContentUpdate = 0 :=
  sendErrors_countP _ _ _ _ rfl rfl rfl rfl

theorem sendErrors_zero_identifier (email : Option JsVal) (integ : Option IntegrationRec)
    (mid : String) : (sendErrors email integ mid).countP isIdentifierUpdate = 0 :=
  sendErrors_countP _ _ _ _ rfl rfl rfl rfl

theorem isOtherUpdate_create (m : MessageRecord) :
    isOtherUpdate (Effect.createMessage m) = false := rfl

theorem isOtherUpdate_deleteMsg : isOtherUpdate Effect.deleteMessage = false := rfl

theorem isOtherUpdate_audit (d : ExecDetail) : isOtherUpdate (Effect.audit d) = false := rfl

theorem isOtherUpdate_errorLog (c : LogCode) : isOtherUpdate (Effect.errorLog c) = false := rfl

theorem isOtherUpdate_errorHandlebars (m : String) :
    isOtherUpdate (Effect.errorHandlebars m) = false := rfl

theorem isOtherUpdate_compileRequest (p : CompilePayload) :
    isOtherUpdate (Effect.compileRequest p) = false := rfl

theorem isOtherUpdate_dispatch (m : IEmailOptions) :
    isOtherUpdate (Effect.providerDispatch m) = false := rfl

theorem isOtherUpdate_content (a b : String) :
    isOtherUpdate (Effect.updateMessage [("subject", a), ("content", b)]) = false := by
  simp [isOtherUpdate, isUpdateMessage, isContentUpdate]

theorem isOtherUpdate_identifier (v : String) :
    isOtherUpdate (Effect.updateMessage [("identifier", v)]) = false := by
  simp [isOtherUpdate, isUpdateMessage, isIdentifierUpdate]

theorem mainPath_msgops (cmd : Command) (w : World) (s : SubscriberRec)
    (tpl : TemplateRec) (integ : IntegrationRec) :
    (mainPath cmd w s tpl integ).1.countP isCreateMessage ≤ 1
    ∧ (mainPath cmd w s tpl integ).1.countP isDeleteMessage = 0
    ∧ (mainPath cmd w s tpl integ).1.countP isOtherUpdate = 0
    ∧ (mainPath cmd w s tpl integ).1.countP isContentUpdate ≤ 1
    ∧ (mainPath cmd w s tpl integ).1.countP isIdentifierUpdate ≤ 1 := by
  rcases hpair : (if replyActive cmd then getReplyTo cmd w w.messageId
      else ([], Except.ok none)) with ⟨reffs, r2⟩
  have hre : ∀ p : Effect → Bool, (∀ d, p (Effect.audit d) = false) → reffs.countP p = 0 := by
    intro p hp
    by_cases hact : replyActive cmd
    · rw [if_pos hact] at hpair
      have hr : reffs = (getReplyTo cmd w w.messageId).1 := by rw [hpair]
      rw [hr]
      exact getReplyTo_countP cmd w w.messageId p (fun d _ => hp _)
    · rw [if_neg hact] at hpair
      simp only [Prod.mk.injEq] at hpair
      rw [← hpair.1]
      simp
  have hlz : ∀ p : Effect → Bool, (∀ d, p (Effect.audit d) = false) →
      ((getOverrideLayoutId cmd w).1.countP p) = 0 :=
    fun p hp => getOverrideLayoutId_countP cmd w p (fun _ => hp _)
  have hrc1 := hre isCreateMessage (fun _ => rfl)
  have hrc2 := hre isDeleteMessage (fun _ => rfl)
  have hrc3 := hre isOtherUpdate (fun _ => rfl)
  have hrc4 := hre isContentUpdate (fun _ => rfl)
  have hrc5 := hre isIdentifierUpdate (fun _ => rfl)
  have hlc1 := hlz isCreateMessage (fun _ => rfl)
  have hlc2 := hlz isDeleteMessage (fun _ => rfl)
  have hlc3 := hlz isOtherUpdate (fun _ => rfl)
  have hlc4 := hlz isContentUpdate (fun _ => rfl)
  have hlc5 := hlz isIdentifierUpdate (fun _ => rfl)
  simp only [mainPath, hpair]
  cases r2 with
  | error e =>
      refine ⟨?_, ?_, ?_, ?_, ?_⟩ <;>
        simp [List.countP_append, hrc1, hrc2, hrc3, hrc4, hrc5, hlc1, hlc2, hlc3, hlc4, hlc5,
          isCreateMessage, isDeleteMessage, isContentUpdate, isIdentifierUpdate,
          isOtherUpdate_create]
  | ok rOpt =>
      cases hc : w.compile with
      | error e =>
          refine ⟨?_, ?_, ?_, ?_, ?_⟩ <;>
            simp [List.countP_append, hrc1, hrc2, hrc3, hrc4, hrc5, hlc1, hlc2, hlc3, hlc4,
              hlc5, isCreateMessage, isDeleteMessage, isContentUpdate, isIdentifierUpdate,
              isOtherUpdate_create, isOtherUpdate_compileRequest, isOtherUpdate_errorHandlebars]
      | ok compiled =>
          cases hsc : w.storeContent <;> cases he2 : optTruthy (emailOf cmd s) <;>
            refine ⟨?_, ?_, ?_, ?_, ?_⟩ <;>
              simp [List.countP_append, hrc1, hrc2, hrc3, hrc4, hrc5,
                hlc1, hlc2, hlc3, hlc4, hlc5, hsc, he2,
                sendMessage_zero_create, sendMessage_zero_delete, sendMessage_zero_other,
                sendMessage_zero_content, sendMessage_id_le_one,
                sendErrors_zero_create, sendErrors_zero_delete, sendErrors_zero_other,
                sendErrors_zero_content, sendErrors_zero_identifier,
                isCreateMessage, isDeleteMessage, isContentUpdate, isIdentifierUpdate,
                isOtherUpdate_create, isOtherUpdate_audit, isOtherUpdate_compileRequest,
                isOtherUpdate_content, isOtherUpdate_identifier]

/-- C3 (amended): in every execution the Message record is created at most
once and never deleted; every mutation writes either exactly the subject
and content fields (the post-compile update) or exactly the
provider-identifier field (the post-dispatch update), and each of those two
mutations occurs at most once — no other field of the record is ever
mutated. -/
theorem C3_message_record_lifecycle (cmd : Command) (w : World) :
    (execute cmd w).1.countP isCreateMessage ≤ 1
    ∧ (execute cmd w).1.countP isDeleteMessage = 0
    ∧ (execute cmd w).1.countP isOtherUpdate = 0
    ∧ (execute cmd w).1.countP isContentUpdate ≤ 1
    ∧ (execute cmd w).1.countP isIdentifierUpdate ≤ 1 := by
  cases hs : w.subscriber with
  | none => simp [execute, hs]
  | some s =>
    cases hi : w.integration with
    | raised msg =>
        simp [execute, hs, hi, isCreateMessage, isDeleteMessage, isContentUpdate,
          isIdentifierUpdate, isOtherUpdate_audit]
    | resolved iOpt =>
      cases hst : cmd.step with
      | none => simp [execute, hs, hi, hst]
      | some st =>
        cases htpl : st.template with
        | none => simp [execute, hs, hi, hst, htpl]
        | some tpl =>
          cases iOpt with
          | none =>
              simp [execute, hs, hi, hst, htpl, isCreateMessage, isDeleteMessage,
                isContentUpdate, isIdentifierUpdate, isOtherUpdate_audit]
          | some integ =>
              have hexec := execute_eq_mainPath cmd w s st tpl integ hs hi hst htpl
              rw [hexec]
              exact mainPath_msgops cmd w s tpl integ

/-- A fully successful run with content retention disabled. -/
def c3World : World := { w0 with storeContent := false }

/-- C3 counterexample: a run that creates the Message record and reaches a
successful dispatch carrying a provider identifier mutates the record once
(the identifier update only), not exactly twice — the post-compile content
update is skipped when content retention is disabled. -/
theorem C3_mutation_count_counterexample :
    c3World.send = Except.ok { resultId := some "prov-1" }
    ∧ (execute cmd0 c3World).1.countP isCreateMessage = 1
    ∧ (execute cmd0 c3World).1.countP isUpdateMessage = 1
    ∧ (execute cmd0 c3World).2 = Except.ok () := by
  decide

/-- C8: with reply callbacks enabled, each unmet reply-address
precondition — no callback URL; neither MX record nor inbound-parse domain;
exactly one of the two DNS prerequisites missing — yields exactly one
WARNING audit entry with a code distinct per precondition and a null reply
address without raising, while a missing environment record raises a
PlatformException that propagates out of the pipeline. -/
theorem C8_reply_preconditions (cmd : Command) (w : World) (mid : String) :
    (strTruthy ((cmd.step.bind fun st => st.replyCallback).bind fun rc => rc.url) = false →
      getReplyTo cmd w mid
        = ([Effect.audit (mkDetail (some mid)
            .REPLY_CALLBACK_MISSING_REPLAY_CALLBACK_URL .WARNING none)], Except.ok none))
    ∧ (strTruthy ((cmd.step.bind fun st => st.replyCallback).bind fun rc => rc.url) = true →
        w.environment = none →
        getReplyTo cmd w mid
          = ([], Except.error (.platformException
              ("Environment " ++ cmd.environmentId ++ " is not found"))))
    ∧ (∀ en : EnvironmentRec,
        strTruthy ((cmd.step.bind fun st => st.replyCallback).bind fun rc => rc.url) = true →
        w.environment = some en →
        (en.dns.map fun d => d.mxRecordConfigured).getD false = false →
        strTruthy (en.dns.bind fun d => d.inboundParseDomain) = false →
        getReplyTo cmd w mid
          = ([Effect.audit (mkDetail (some mid)
              .REPLY_CALLBACK_NOT_CONFIGURATION .WARNING none)], Except.ok none))
    ∧ (∀ en : EnvironmentRec,
        strTruthy ((cmd.step.bind fun st => st.replyCallback).bind fun rc => rc.url) = true →
        w.environment = some en →
        (en.dns.map fun d => d.mxRecordConfigured).getD false = false →
        strTruthy (en.dns.bind fun d => d.inboundParseDomain) = true →
        getReplyTo cmd w mid
          = ([Effect.audit (mkDetail (some mid)
              .REPLY_CALLBACK_MISSING_MX_RECORD_CONFIGURATION .WARNING none)], Except.ok none))
    ∧ (∀ en : EnvironmentRec,
        strTruthy ((cmd.step.bind fun st => st.replyCallback).bind fun rc => rc.url) = true →
        w.environment = some en →
        (en.dns.map fun d => d.mxRecordConfigured).getD false = true →
        strTruthy (en.dns.bind fun d => d.inboundParseDomain) = false →
        getReplyTo cmd w mid
          = ([Effect.audit (mkDetail (some mid)
              .REPLY_CALLBACK_MISSING_MX_ROUTE_DOMAIN_CONFIGURATION .WARNING none)],
             Except.ok none))
    ∧ List.Pairwise (fun a b => a ≠ b)
        ([.REPLY_CALLBACK_MISSING_REPLAY_CALLBACK_URL, .REPLY_CALLBACK_NOT_CONFIGURATION,
          .REPLY_CALLBACK_MISSING_MX_RECORD_CONFIGURATION,
          .REPLY_CALLBACK_MISSING_MX_ROUTE_DOMAIN_CONFIGURATION] : List PipelineDetail)
    ∧ (∀ (s : SubscriberRec) (st : StepRec) (tpl : TemplateRec) (integ : IntegrationRec),
        w.subscriber = some s → w.integration = .resolved (some integ) →
        cmd.step = some st → st.template = some tpl →
        replyActive cmd = true →
        strTruthy ((cmd.step.bind fun st => st.replyCallback).bind fun rc => rc.url) = true →
        w.environment = none →
        (execute cmd w).2 = Except.error (.platformException
          ("Environment " ++ cmd.environmentId ++ " is not found"))) := by
  refine ⟨?_, ?_, ?_, ?_, ?_, by decide, ?_⟩
  · intro h
    simp [getReplyTo, h]
  · intro hu hen
    simp [getReplyTo, hu, hen]
  · intro en hu hen hmx hdom
    simp [getReplyTo, hu, hen, hmx, hdom]
  · intro en hu hen hmx hdom
    simp [getReplyTo, hu, hen, hmx, hdom]
  · intro en hu hen hmx hdom
    simp [getReplyTo, hu, hen, hmx, hdom]
  · intro s st tpl integ hs hi hst htpl hact hu hen
    have hexec := execute_eq_mainPath cmd w s st tpl integ hs hi hst htpl
    have hgr : getReplyTo cmd w w.messageId
        = ([], Except.error (.platformException
            ("Environment " ++ cmd.environmentId ++ " is not found"))) := by
      simp [getReplyTo, hu, hen]
    rw [hexec]
    simp [mainPath, hact, hgr]

/-- A step with reply callbacks enabled but no callback URL configured. -/
def c8Step : StepRec :=
  { template := some tpl0, replyCallback := some { active := true, url := none } }

/-- A command whose step enables reply callbacks without a URL. -/
def c8Cmd : Command := { cmd0 with step := some c8Step }

theorem C8_reply_preconditions_witness :
    strTruthy ((c8Cmd.step.bind fun st => st.replyCallback).bind fun rc => rc.url) = false
    ∧ getReplyTo c8Cmd w0 "msg-1"
        = ([Effect.audit (mkDetail (some "msg-1")
            .REPLY_CALLBACK_MISSING_REPLAY_CALLBACK_URL .WARNING none)], Except.ok none) :=
  ⟨by decide, (C8_reply_preconditions c8Cmd w0 "msg-1").1 (by decide)⟩
